import Mathlib

set_option linter.unusedVariables false

/-!
Shallow embedding of the book-management service (a NestJS + Supabase CRUD
application).  JavaScript numeric-string parsing, string truthiness and the
PostgREST-backed datastore gateway are modelled explicitly; the service and
controller functions are translated from `books.service.ts`,
`books.controller.ts`, `authors.service.ts` and `authors.controller.ts`.
-/

namespace BookMgmt

/-! ## JavaScript primitives -/

/-- ASCII lower-casing of a code point (65..90 are A..Z, folded to a..z).
JavaScript case-insensitive matching (`i` regex flag, `ilike`) folds ASCII
letters this way. -/
def asciiLowerN (n : Nat) : Nat := if 65 ≤ n ∧ n ≤ 90 then n + 32 else n

/-- Code points of a string. -/
def codes (s : String) : List Nat := s.data.map Char.toNat

/-- Case-folded code points of a string. -/
def foldedCodes (s : String) : List Nat := (codes s).map asciiLowerN

/-- Value of a list of decimal-digit code points, most significant first. -/
def digitsVal (ds : List Nat) : Nat := ds.foldl (fun a d => a * 10 + (d - 48)) 0

/-- Is a code point a decimal digit (48..57 are 0..9)? -/
def isDigitCode (n : Nat) : Bool := decide (48 ≤ n ∧ n ≤ 57)

/-- `parseInt(s)` on the leading digits of `cs` (sign already stripped):
`none` models `NaN` (no leading digit). -/
def parseDigits (cs : List Nat) : Option Nat :=
  match cs.takeWhile isDigitCode with
  | [] => none
  | ds => some (digitsVal ds)

/-- JavaScript `parseInt(s)` (radix 10, no leading whitespace — the query
strings handled here carry none): optional sign, then the longest leading
digit run; `none` models `NaN`. -/
def jsParseInt (s : String) : Option Int :=
  match codes s with
  | 45 :: rest => (parseDigits rest).map (fun n => -(n : Int))  -- '-'
  | 43 :: rest => (parseDigits rest).map (fun n => (n : Int))   -- '+'
  | cs => (parseDigits cs).map (fun n => (n : Int))

/-- JavaScript `parseInt(x) || d` where `x : string | undefined`:
`undefined` parses to `NaN`; `NaN` and `0` are falsy and fall back to `d`. -/
def jsToIntOr (o : Option String) (d : Int) : Int :=
  match o.bind jsParseInt with
  | none => d
  | some n => if n = 0 then d else n

/-- JavaScript `x || d` on `x : string | undefined`: `undefined` and the empty
string are falsy. -/
def jsOrStr (o : Option String) (d : String) : String :=
  match o with
  | none => d
  | some s => if s = "" then d else s

/-- JavaScript truthiness of a `string | undefined` value: truthy exactly when
defined and non-empty. -/
def truthy (o : Option String) : Bool :=
  match o with
  | none => false
  | some s => !(s == "")

/-- A JavaScript number as it can appear in pagination metadata. -/
inductive JsNum where
  | nan
  | inf
  | negInf
  | int (n : Int)
deriving DecidableEq, Repr

/-- JavaScript `Math.ceil(total / limit)` where `limit` may be `NaN`
(`none`): division by `0` yields an infinity (or `NaN` for `0 / 0`),
otherwise the exact rational ceiling. -/
def jsCeilDiv (total : Int) (limit : Option Int) : JsNum :=
  match limit with
  | none => .nan
  | some 0 => if total = 0 then .nan else if 0 < total then .inf else .negInf
  | some l => .int (-((-total).fdiv l))

/-- Does `hay` start with `pat`? -/
def listStartsWith : List Nat → List Nat → Bool
  | [], _ => true
  | _ :: _, [] => false
  | p :: ps, c :: cs => (p == c) && listStartsWith ps cs

/-- Does `hay` contain `pat` as a contiguous sublist? -/
def listHasSub (pat : List Nat) : List Nat → Bool
  | [] => pat.isEmpty
  | c :: cs => listStartsWith pat (c :: cs) || listHasSub pat cs

/-- PostgREST `ilike '%pat%'`: case-insensitive substring containment
(wildcard characters inside `pat` are not modelled; the claims use none). -/
def containsCI (hay pat : String) : Bool :=
  listHasSub (foldedCodes pat) (foldedCodes hay)

/-! ## UUID validation

`validateUUID` in both services tests
`/^[0-9a-f]{8}-[0-9a-f]{4}-[1-5][0-9a-f]{3}-[89ab][0-9a-f]{3}-[0-9a-f]{12}$/i`.
The anchored regex is embedded as a positionally matched list of
character-class predicates over code points; the `i` flag makes each letter
class accept both cases. -/

/-- `[0-9a-f]` with the `i` flag: `0-9`, `a-f` or `A-F`. -/
def isHexCode (n : Nat) : Bool :=
  decide ((48 ≤ n ∧ n ≤ 57) ∨ (97 ≤ n ∧ n ≤ 102) ∨ (65 ≤ n ∧ n ≤ 70))

/-- `[1-5]` (49..53). -/
def isVersionCode (n : Nat) : Bool := decide (49 ≤ n ∧ n ≤ 53)

/-- `[89ab]` with the `i` flag: `8`, `9`, `a`, `b`, `A` or `B`. -/
def isVariantCode (n : Nat) : Bool :=
  decide (n = 56 ∨ n = 57 ∨ n = 97 ∨ n = 98 ∨ n = 65 ∨ n = 66)

/-- `-` (45). -/
def isDashCode (n : Nat) : Bool := decide (n = 45)

/-- Anchored positional match: the string matches iff it has exactly the
pattern's length and each code point satisfies its class. -/
def matchesClasses : List (Nat → Bool) → List Nat → Bool
  | [], [] => true
  | p :: ps, c :: cs => p c && matchesClasses ps cs
  | _, _ => false

/-- The 8-4-4-4-12 UUID pattern with version nibble `[1-5]` and variant
nibble `[89ab]`, case-insensitive. -/
def uuidClasses : List (Nat → Bool) :=
  List.replicate 8 isHexCode ++ [isDashCode] ++
  List.replicate 4 isHexCode ++ [isDashCode] ++
  [isVersionCode] ++ List.replicate 3 isHexCode ++ [isDashCode] ++
  [isVariantCode] ++ List.replicate 3 isHexCode ++ [isDashCode] ++
  List.replicate 12 isHexCode

/-- `uuidRegex.test(id)`. -/
def isUUID (s : String) : Bool := matchesClasses uuidClasses (codes s)

/-- `AuthorsService.validateUUID` succeeds iff this holds (it throws
`BadRequestException('Invalid UUID format')` otherwise). -/
def authorsValidUUID (id : String) : Bool := isUUID id

/-- `BooksService.validateUUID` succeeds iff this holds (same regex,
duplicated in `books.service.ts`). -/
def booksValidUUID (id : String) : Bool := isUUID id

/-! ## DTO boundary validation (class-validator)

`QueryBookDto` / `QueryAuthorDto` mark `page` and `limit` with
`@IsOptional() @IsNumberString()`.  `IsNumberString` delegates to
validator.js `isNumeric` with default options, whose pattern is
`^[+-]?([0-9]*[.])?[0-9]+$` — an optional sign, an optional integer part
followed by a dot, and a mandatory digit run. -/

/-- One or more digit code points. -/
def digitRun : List Nat → Bool
  | [] => false
  | [c] => isDigitCode c
  | c :: cs => isDigitCode c && digitRun cs

/-- `([0-9]*[.])?[0-9]+` on code points (46 is `.`). -/
def numericBody (cs : List Nat) : Bool :=
  let intPart := cs.takeWhile isDigitCode
  match cs.drop intPart.length with
  | [] => !intPart.isEmpty
  | 46 :: rest => digitRun rest
  | _ => false

/-- validator.js `isNumeric` (default options), as used by
`@IsNumberString()`. -/
def isNumberString (s : String) : Bool :=
  match codes s with
  | 45 :: rest => numericBody rest
  | 43 :: rest => numericBody rest
  | cs => numericBody cs

/-! ## Data model and datastore gateway -/

/-- A stored `authors` row (snake_case columns as persisted). -/
structure AuthorRow where
  id : String
  first_name : String
  last_name : String
  bio : Option String
  birth_date : Option String
  created_at : Nat
  updated_at : Nat
deriving DecidableEq, Repr

/-- A stored `books` row. -/
structure BookRow where
  id : String
  title : String
  isbn : String
  published_date : Option String
  genre : Option String
  author_id : String
  created_at : Nat
  updated_at : Nat
deriving DecidableEq, Repr

/-- The datastore state the two services share. -/
structure Db where
  authors : List AuthorRow
  books : List BookRow
deriving DecidableEq, Repr

/-- The two error classes the services throw: `badRequest` models
`BadRequestException` (the spec's ValidationError / PersistenceError, both
HTTP 400) and `notFound` models `NotFoundException` (HTTP 404). -/
inductive AppError where
  | badRequest (msg : String)
  | notFound (msg : String)
deriving DecidableEq, Repr

/-- What one `.single()` gateway round trip hands back to the service:
`data` is the row when the query matched exactly one row, and `dbError` is a
datastore-reported error message (PostgREST also reports an error when the
row count is not exactly one, leaving `data` empty). -/
structure GatewayResp (α : Type) where
  data : Option α
  dbError : Option String
deriving DecidableEq, Repr

/-- `.single()` against the list-backed datastore: the row exactly when one
row matches the filter, nothing otherwise. -/
def single? (p : α → Bool) (l : List α) : Option α :=
  match l.filter p with
  | [a] => some a
  | _ => none

/-- The healthy gateway's `.single()` response: no spontaneous datastore
error; absence (or a non-unique match) surfaces as empty `data`. -/
def gatewaySingle (p : α → Bool) (l : List α) : GatewayResp α :=
  { data := single? p l, dbError := none }

/-- Insert `a` into a list already sorted by `key` descending. -/
def insertKeyDesc (key : α → Nat) (a : α) : List α → List α
  | [] => [a]
  | b :: l => if key a ≤ key b then b :: insertKeyDesc key a l else a :: b :: l

/-- Sort by `key` descending — the gateway's
`.order('created_at', { ascending: false })`. -/
def sortKeyDesc (key : α → Nat) (l : List α) : List α :=
  l.foldr (insertKeyDesc key) []

/-! ## Authors service (`authors.service.ts`) -/

/-- `AuthorsService.findOne` given the gateway's response for
`.eq('id', id).single()`: UUID validation first, then
`if (error || !data) throw new NotFoundException(...)`. -/
def authorsFindOneCore (id : String) (resp : GatewayResp AuthorRow) :
    Except AppError AuthorRow :=
  if authorsValidUUID id = false then
    .error (.badRequest "Invalid UUID format")
  else
    match resp.dbError, resp.data with
    | none, some a => .ok a
    | _, _ => .error (.notFound ("Author with ID " ++ id ++ " not found"))

/-- `AuthorsService.findOne` against the list-backed datastore. -/
def authorsFindOne (id : String) (authors : List AuthorRow) :
    Except AppError AuthorRow :=
  authorsFindOneCore id (gatewaySingle (fun a => a.id == id) authors)

/-- `QueryAuthorDto` (all fields optional strings; `page`/`limit` are
numeric strings). -/
structure QueryAuthorDto where
  page : Option String := none
  limit : Option String := none
  firstName : Option String := none
  lastName : Option String := none
deriving DecidableEq, Repr

/-- The filter set `AuthorsService.findAll` builds: a row passes every
`ilike '%…%'` filter that a truthy query field adds. -/
def authorMatches (q : QueryAuthorDto) (a : AuthorRow) : Bool :=
  (!truthy q.firstName || containsCI a.first_name (q.firstName.getD "")) &&
  (!truthy q.lastName || containsCI a.last_name (q.lastName.getD ""))

/-- `AuthorsService.findAll`: `page = parseInt(query.page) || 1`,
`limit = parseInt(query.limit) || 10`, `offset = (page - 1) * limit`; one
query carries the filters, `range(offset, offset + limit - 1)`,
`order(created_at desc)` and an exact count.  A window the gateway cannot
serve (negative offset or width) comes back as a datastore error, which the
service rethrows as `BadRequestException`. -/
def authorsFindAll (q : QueryAuthorDto) (authors : List AuthorRow) :
    Except AppError (List AuthorRow × Nat) :=
  let page : Int := jsToIntOr q.page 1
  let limit : Int := jsToIntOr q.limit 10
  let offset : Int := (page - 1) * limit
  let matched := authors.filter (authorMatches q)
  if offset < 0 || limit < 0 then
    .error (.badRequest "Failed to fetch authors: Requested range not satisfiable")
  else
    .ok (((sortKeyDesc (fun a => a.created_at) matched).drop offset.toNat).take
          limit.toNat,
         matched.length)

/-- `UpdateAuthorDto`: every field optional; `none` is JavaScript
`undefined`. -/
structure UpdateAuthorDto where
  firstName : Option String := none
  lastName : Option String := none
  bio : Option String := none
  birthDate : Option String := none
deriving DecidableEq, Repr

/-- Is the `updateData` object `AuthorsService.update` builds empty?  A field
enters it exactly when it is not `undefined`. -/
def authorUpdateEmpty (dto : UpdateAuthorDto) : Bool :=
  dto.firstName.isNone && dto.lastName.isNone && dto.bio.isNone &&
  dto.birthDate.isNone

/-- Apply the non-`undefined` fields of the partial to a stored row; the
datastore refreshes `updated_at` on the write. -/
def applyAuthorUpdate (dto : UpdateAuthorDto) (now : Nat) (a : AuthorRow) :
    AuthorRow :=
  { a with
    first_name := dto.firstName.getD a.first_name
    last_name := dto.lastName.getD a.last_name
    bio := match dto.bio with | some v => some v | none => a.bio
    birth_date := match dto.birthDate with | some v => some v | none => a.birth_date
    updated_at := now }

/-- `AuthorsService.update`: UUID validation, existence check via `findOne`,
build the update set from the defined fields, return the current record when
the set is empty, otherwise write and return the refreshed row.  The result
is paired with the datastore state after the call. -/
def authorsUpdate (id : String) (dto : UpdateAuthorDto)
    (authors : List AuthorRow) (now : Nat) :
    Except AppError AuthorRow × List AuthorRow :=
  if authorsValidUUID id = false then
    (.error (.badRequest "Invalid UUID format"), authors)
  else
    match authorsFindOne id authors with
    | .error e => (.error e, authors)
    | .ok _ =>
      if authorUpdateEmpty dto then
        (authorsFindOne id authors, authors)
      else
        match single? (fun a => a.id == id) authors with
        | some cur =>
          (.ok (applyAuthorUpdate dto now cur),
           authors.map (fun a => if a.id == id then applyAuthorUpdate dto now a else a))
        | none =>
          (.error (.badRequest "Failed to update author: row not returned"),
           authors.map (fun a => if a.id == id then applyAuthorUpdate dto now a else a))

/-! ## Books service (`books.service.ts`) -/

/-- `BooksService.findOne` given the gateway response for the joined
`.eq('id', id).single()` read. -/
def booksFindOneCore (id : String) (resp : GatewayResp BookRow) :
    Except AppError BookRow :=
  if booksValidUUID id = false then
    .error (.badRequest "Invalid UUID format")
  else
    match resp.dbError, resp.data with
    | none, some b => .ok b
    | _, _ => .error (.notFound ("Book with ID " ++ id ++ " not found"))

/-- `BooksService.findOne` against the list-backed datastore. -/
def booksFindOne (id : String) (books : List BookRow) :
    Except AppError BookRow :=
  booksFindOneCore id (gatewaySingle (fun b => b.id == id) books)

/-- `CreateBookDto` after boundary validation: `title`, `isbn`, `authorId`
required, the rest optional. -/
structure CreateBookDto where
  title : String
  isbn : String
  publishedDate : Option String := none
  genre : Option String := none
  authorId : String
deriving DecidableEq, Repr

/-- `BooksService.create`: author resolution (delegated to
`AuthorsService.findOne`, its errors propagate unchanged), then the
duplicate-ISBN pre-check (`.eq('isbn', …).single()` — a hit throws
`BadRequestException`), then the insert.  `now` is the server clock and
`newId` the server-generated id; the result is paired with the datastore
state after the call. -/
def booksCreate (dto : CreateBookDto) (db : Db) (now : Nat) (newId : String) :
    Except AppError BookRow × Db :=
  match authorsFindOne dto.authorId db.authors with
  | .error e => (.error e, db)
  | .ok _ =>
    match single? (fun b => b.isbn == dto.isbn) db.books with
    | some _ =>
      (.error (.badRequest ("Book with ISBN " ++ dto.isbn ++ " already exists")), db)
    | none =>
      let row : BookRow :=
        { id := newId, title := dto.title, isbn := dto.isbn,
          published_date := dto.publishedDate, genre := dto.genre,
          author_id := dto.authorId, created_at := now, updated_at := now }
      (.ok row, { db with books := db.books ++ [row] })

/-- `QueryBookDto` (all fields optional strings). -/
structure QueryBookDto where
  page : Option String := none
  limit : Option String := none
  title : Option String := none
  isbn : Option String := none
  authorId : Option String := none
  genre : Option String := none
deriving DecidableEq, Repr

/-- The filter set `BooksService.findAll` builds: `ilike` substring filters
for truthy `title`/`isbn`/`genre` and an exact `eq` filter for a truthy
`authorId` (an `ilike` on an absent `genre` column value matches nothing). -/
def bookMatches (q : QueryBookDto) (b : BookRow) : Bool :=
  (!truthy q.title || containsCI b.title (q.title.getD "")) &&
  (!truthy q.isbn || containsCI b.isbn (q.isbn.getD "")) &&
  (!truthy q.genre ||
    (match b.genre with | some g => containsCI g (q.genre.getD "") | none => false)) &&
  (!truthy q.authorId || (b.author_id == q.authorId.getD ""))

/-- `BooksService.findAll`: same pagination arithmetic as the authors
service; a truthy `authorId` is UUID-validated (throwing
`BadRequestException`) before the query runs. -/
def booksFindAll (q : QueryBookDto) (books : List BookRow) :
    Except AppError (List BookRow × Nat) :=
  let page : Int := jsToIntOr q.page 1
  let limit : Int := jsToIntOr q.limit 10
  let offset : Int := (page - 1) * limit
  if truthy q.authorId && !booksValidUUID (q.authorId.getD "") then
    .error (.badRequest "Invalid UUID format")
  else
    let matched := books.filter (bookMatches q)
    if offset < 0 || limit < 0 then
      .error (.badRequest "Failed to fetch books: Requested range not satisfiable")
    else
      .ok (((sortKeyDesc (fun b => b.created_at) matched).drop offset.toNat).take
            limit.toNat,
           matched.length)

/-- `UpdateBookDto`: every field optional; `none` is JavaScript
`undefined`. -/
structure UpdateBookDto where
  title : Option String := none
  isbn : Option String := none
  publishedDate : Option String := none
  genre : Option String := none
  authorId : Option String := none
deriving DecidableEq, Repr

/-- Is the `updateData` object `BooksService.update` builds empty?  A field
enters it exactly when it is not `undefined` (`!== undefined`). -/
def bookUpdateEmpty (dto : UpdateBookDto) : Bool :=
  dto.title.isNone && dto.isbn.isNone && dto.publishedDate.isNone &&
  dto.genre.isNone && dto.authorId.isNone

/-- Apply the non-`undefined` fields of the partial to a stored row; the
datastore refreshes `updated_at` on the write. -/
def applyBookUpdate (dto : UpdateBookDto) (now : Nat) (b : BookRow) : BookRow :=
  { b with
    title := dto.title.getD b.title
    isbn := dto.isbn.getD b.isbn
    published_date :=
      match dto.publishedDate with | some v => some v | none => b.published_date
    genre := match dto.genre with | some v => some v | none => b.genre
    author_id := dto.authorId.getD b.author_id
    updated_at := now }

/-- `BooksService.update`: UUID validation; existence via `findOne`; a
*truthy* `authorId` is resolved through the authors service; a *truthy*
`isbn` triggers the duplicate pre-check `.eq('isbn', …).neq('id', id)
.single()`; then the update set is built from the *defined* fields — an
empty set returns `findOne(id)` unchanged, otherwise the row is written and
returned.  The result is paired with the datastore state after the call. -/
def booksUpdate (id : String) (dto : UpdateBookDto) (db : Db) (now : Nat) :
    Except AppError BookRow × Db :=
  if booksValidUUID id = false then
    (.error (.badRequest "Invalid UUID format"), db)
  else
    match booksFindOne id db.books with
    | .error e => (.error e, db)
    | .ok _ =>
      match (if truthy dto.authorId then
               (authorsFindOne (dto.authorId.getD "") db.authors).map (fun _ => ())
             else .ok ()) with
      | .error e => (.error e, db)
      | .ok _ =>
        if truthy dto.isbn &&
           (single? (fun b => b.isbn == dto.isbn.getD "" && !(b.id == id))
             db.books).isSome then
          (.error (.badRequest
             ("Book with ISBN " ++ dto.isbn.getD "" ++ " already exists")), db)
        else if bookUpdateEmpty dto then
          (booksFindOne id db.books, db)
        else
          match single? (fun b => b.id == id) db.books with
          | some cur =>
            (.ok (applyBookUpdate dto now cur),
             { db with books :=
                 db.books.map (fun b => if b.id == id then applyBookUpdate dto now b else b) })
          | none =>
            (.error (.badRequest "Failed to update book: row not returned"),
             { db with books :=
                 db.books.map (fun b => if b.id == id then applyBookUpdate dto now b else b) })

/-! ## Controllers (pagination envelope) -/

/-- The `meta` object of a list response.  `page` and `limit` are the
controller's `parseInt` results (`none` models `NaN`); `totalPages` is a
JavaScript number. -/
structure PageMeta where
  total : Nat
  page : Option Int
  limit : Option Int
  totalPages : JsNum
deriving DecidableEq, Repr

/-- `BooksController.findAll`: calls the service, then computes
`page = parseInt(query.page || '1')`, `limit = parseInt(query.limit || '10')`
and `totalPages = Math.ceil(result.total / limit)` and echoes them in
`meta`. -/
def booksControllerFindAll (q : QueryBookDto) (books : List BookRow) :
    Except AppError (List BookRow × PageMeta) :=
  match booksFindAll q books with
  | .error e => .error e
  | .ok (data, total) =>
    let page := jsParseInt (jsOrStr q.page "1")
    let limit := jsParseInt (jsOrStr q.limit "10")
    .ok (data,
         { total := total, page := page, limit := limit,
           totalPages := jsCeilDiv (Int.ofNat total) limit })

/-- `AuthorsController.findAll`: identical envelope computation. -/
def authorsControllerFindAll (q : QueryAuthorDto) (authors : List AuthorRow) :
    Except AppError (List AuthorRow × PageMeta) :=
  match authorsFindAll q authors with
  | .error e => .error e
  | .ok (data, total) =>
    let page := jsParseInt (jsOrStr q.page "1")
    let limit := jsParseInt (jsOrStr q.limit "10")
    .ok (data,
         { total := total, page := page, limit := limit,
           totalPages := jsCeilDiv (Int.ofNat total) limit })

/-- validator.js `isUUID(v)` with the default version `'all'`, used by the
bare `@IsUUID()` on `QueryBookDto.authorId`: 8-4-4-4-12 hex groups with no
version/variant constraint, case-insensitive. -/
def isUUIDAll (s : String) : Bool :=
  matchesClasses
    (List.replicate 8 isHexCode ++ [isDashCode] ++
     List.replicate 4 isHexCode ++ [isDashCode] ++
     List.replicate 4 isHexCode ++ [isDashCode] ++
     List.replicate 4 isHexCode ++ [isDashCode] ++
     List.replicate 12 isHexCode)
    (codes s)

/-- The global `ValidationPipe` applied to `QueryBookDto`: `page` and
`limit` must satisfy `@IsNumberString()` when supplied, `authorId` must
satisfy `@IsUUID()` when supplied; `title`/`isbn`/`genre` are plain optional
strings.  A request whose query fails this never reaches the controller. -/
def queryBookDtoAccepts (q : QueryBookDto) : Bool :=
  (match q.page with | none => true | some s => isNumberString s) &&
  (match q.limit with | none => true | some s => isNumberString s) &&
  (match q.authorId with | none => true | some s => isUUIDAll s)

/-! ## Helper lemmas -/

theorem length_insertKeyDesc (key : α → Nat) (a : α) (l : List α) :
    (insertKeyDesc key a l).length = l.length + 1 := by
  induction l with
  | nil => rfl
  | cons b l ih =>
    unfold insertKeyDesc
    split
    · simp [ih]
    · simp

theorem length_sortKeyDesc (key : α → Nat) (l : List α) :
    (sortKeyDesc key l).length = l.length := by
  induction l with
  | nil => rfl
  | cons a l ih =>
    show (insertKeyDesc key a (sortKeyDesc key l)).length = l.length + 1
    rw [length_insertKeyDesc, ih]

theorem single?_eq_some (p : α → Bool) (l : List α) (a : α)
    (h : single? p l = some a) : a ∈ l ∧ p a = true := by
  unfold single? at h
  rcases hf : l.filter p with _ | ⟨b, _ | _⟩ <;> rw [hf] at h <;>
    simp only [Option.some.injEq] at h
  · cases h
  · have : a ∈ l.filter p := by rw [hf]; exact List.mem_singleton.mpr h.symm
    exact List.mem_filter.mp this
  · cases h

/-- In a list whose `key`s are pairwise distinct, the rows with `key = v`
are exactly the one member carrying that key. -/
theorem filter_key_eq_singleton (key : α → String) {l : List α}
    (hp : l.Pairwise (fun a b => key a ≠ key b)) {a : α} (ha : a ∈ l)
    {v : String} (hv : key a = v) :
    l.filter (fun b => key b == v) = [a] := by
  induction l with
  | nil => cases ha
  | cons x xs ih =>
    rw [List.pairwise_cons] at hp
    rcases List.mem_cons.mp ha with rfl | hmem
    · rw [List.filter_cons_of_pos (by simp [hv])]
      have : xs.filter (fun b => key b == v) = [] := by
        rw [List.filter_eq_nil_iff]
        intro b hb
        have := hp.1 b hb
        simp only [beq_iff_eq]
        intro hc
        exact this (hv.trans hc.symm)
      rw [this]
    · rw [List.filter_cons_of_neg (by
        simp only [beq_iff_eq]
        intro hc
        exact hp.1 a hmem (hc.trans hv.symm))]
      exact ih hp.2 hmem

/-- No row carries `key = v`: the filter is empty. -/
theorem filter_key_eq_nil (key : α → String) {l : List α} {v : String}
    (h : ∀ b ∈ l, key b ≠ v) :
    l.filter (fun b => key b == v) = [] := by
  rw [List.filter_eq_nil_iff]
  intro b hb
  simp only [beq_iff_eq]
  exact h b hb

/-- Conjoining a second test onto a filter that selects exactly `[a]` keeps
`a` iff `a` passes the second test. -/
theorem filter_and_eq {p q : α → Bool} {l : List α} {a : α}
    (h : l.filter p = [a]) :
    l.filter (fun b => p b && q b) = if q a then [a] else [] := by
  induction l with
  | nil => simp at h
  | cons x xs ih =>
    by_cases hx : p x = true
    · rw [List.filter_cons_of_pos hx] at h
      simp only [List.cons.injEq] at h
      obtain ⟨rfl, hnil⟩ := h
      have hxs : xs.filter (fun b => p b && q b) = [] := by
        rw [List.filter_eq_nil_iff] at hnil ⊢
        intro b hb
        simp [hnil b hb]
      by_cases hq : q x = true
      · rw [List.filter_cons_of_pos (by simp [hx, hq]), hxs, if_pos hq]
      · rw [List.filter_cons_of_neg (by simp [hx, hq]), hxs, if_neg hq]
    · rw [List.filter_cons_of_neg hx] at h
      rw [List.filter_cons_of_neg (by simp [hx])]
      exact ih h

/-- `BooksService.findAll` on a request whose effective page and limit are
positive and whose `authorId` filter passes validation returns exactly the
pagination window over the sorted filtered rows together with the full
matching count. -/
theorem booksFindAll_ok (q : QueryBookDto) (books : List BookRow)
    (hp : 1 ≤ jsToIntOr q.page 1) (hl : 1 ≤ jsToIntOr q.limit 10)
    (ha : truthy q.authorId = false ∨ booksValidUUID (q.authorId.getD "") = true) :
    booksFindAll q books =
      .ok (((sortKeyDesc (fun b => b.created_at)
              (books.filter (bookMatches q))).drop
              (((jsToIntOr q.page 1 - 1) * jsToIntOr q.limit 10).toNat)).take
              (jsToIntOr q.limit 10).toNat,
           (books.filter (bookMatches q)).length) := by
  unfold booksFindAll
  have h1 : (truthy q.authorId && !booksValidUUID (q.authorId.getD "")) = false := by
    rcases ha with h | h <;> simp [h]
  have h2 : ¬((jsToIntOr q.page 1 - 1) * jsToIntOr q.limit 10 < 0) := by
    have : (0:Int) ≤ (jsToIntOr q.page 1 - 1) * jsToIntOr q.limit 10 :=
      mul_nonneg (by omega) (by omega)
    omega
  simp only [h1, Bool.false_eq_true, if_false]
  rw [if_neg (by simp only [Bool.or_eq_true, decide_eq_true_eq]; omega)]

/-- `AuthorsService.findAll` analogue of `booksFindAll_ok`. -/
theorem authorsFindAll_ok (q : QueryAuthorDto) (authors : List AuthorRow)
    (hp : 1 ≤ jsToIntOr q.page 1) (hl : 1 ≤ jsToIntOr q.limit 10) :
    authorsFindAll q authors =
      .ok (((sortKeyDesc (fun a => a.created_at)
              (authors.filter (authorMatches q))).drop
              (((jsToIntOr q.page 1 - 1) * jsToIntOr q.limit 10).toNat)).take
              (jsToIntOr q.limit 10).toNat,
           (authors.filter (authorMatches q)).length) := by
  unfold authorsFindAll
  have h2 : ¬((jsToIntOr q.page 1 - 1) * jsToIntOr q.limit 10 < 0) := by
    have : (0:Int) ≤ (jsToIntOr q.page 1 - 1) * jsToIntOr q.limit 10 :=
      mul_nonneg (by omega) (by omega)
    omega
  rw [if_neg (by simp only [Bool.or_eq_true, decide_eq_true_eq]; omega)]

theorem isHexCode_lower (n : Nat) : isHexCode (asciiLowerN n) = isHexCode n := by
  unfold isHexCode asciiLowerN
  split
  · rw [decide_eq_decide]; omega
  · rfl

theorem isVersionCode_lower (n : Nat) :
    isVersionCode (asciiLowerN n) = isVersionCode n := by
  unfold isVersionCode asciiLowerN
  split
  · rw [decide_eq_decide]; omega
  · rfl

theorem isVariantCode_lower (n : Nat) :
    isVariantCode (asciiLowerN n) = isVariantCode n := by
  unfold isVariantCode asciiLowerN
  split
  · rw [decide_eq_decide]; omega
  · rfl

theorem isDashCode_lower (n : Nat) : isDashCode (asciiLowerN n) = isDashCode n := by
  unfold isDashCode asciiLowerN
  split
  · rw [decide_eq_decide]; omega
  · rfl

/-- Every class of the UUID pattern tests only the case-folded code point. -/
theorem uuidClasses_lower : ∀ p ∈ uuidClasses, ∀ n, p (asciiLowerN n) = p n := by
  intro p hp n
  have h4 : p = isHexCode ∨ p = isDashCode ∨ p = isVersionCode ∨
      p = isVariantCode := by
    simp only [uuidClasses, List.mem_append, List.mem_replicate,
      List.mem_singleton] at hp
    tauto
  rcases h4 with rfl | rfl | rfl | rfl
  · exact isHexCode_lower n
  · exact isDashCode_lower n
  · exact isVersionCode_lower n
  · exact isVariantCode_lower n

/-- Positional class matching is invariant under case folding of the input
when every class is. -/
theorem matchesClasses_map_lower (ps : List (Nat → Bool))
    (hps : ∀ p ∈ ps, ∀ n, p (asciiLowerN n) = p n) :
    ∀ ns : List Nat, matchesClasses ps (ns.map asciiLowerN) = matchesClasses ps ns := by
  induction ps with
  | nil => intro ns; cases ns <;> rfl
  | cons p ps ih =>
    intro ns
    cases ns with
    | nil => rfl
    | cons n ns =>
      show (p (asciiLowerN n) && matchesClasses ps (ns.map asciiLowerN)) =
           (p n && matchesClasses ps ns)
      rw [hps p (List.mem_cons_self p ps) n,
         ih (fun r hr => hps r (List.mem_cons_of_mem p hr)) ns]

/-- `uuidRegex.test` depends only on the case-folded code points. -/
theorem isUUID_eq_of_foldedCodes {s t : String}
    (h : foldedCodes s = foldedCodes t) : isUUID s = isUUID t := by
  unfold isUUID
  calc matchesClasses uuidClasses (codes s)
      = matchesClasses uuidClasses ((codes s).map asciiLowerN) :=
        (matchesClasses_map_lower uuidClasses uuidClasses_lower (codes s)).symm
    _ = matchesClasses uuidClasses ((codes t).map asciiLowerN) := by
        unfold foldedCodes at h; rw [h]
    _ = matchesClasses uuidClasses (codes t) :=
        matchesClasses_map_lower uuidClasses uuidClasses_lower (codes t)

/-- Decidable equality for `Except` results, so witnesses can be settled by
evaluation. -/
def exceptDecEq [DecidableEq ε] [DecidableEq α] : DecidableEq (Except ε α)
  | .ok a, .ok b =>
    match decEq a b with
    | .isTrue h => .isTrue (congrArg Except.ok h)
    | .isFalse h => .isFalse (fun c => h (Except.ok.inj c))
  | .error a, .error b =>
    match decEq a b with
    | .isTrue h => .isTrue (congrArg Except.error h)
    | .isFalse h => .isFalse (fun c => h (Except.error.inj c))
  | .ok _, .error _ => .isFalse (fun c => Except.noConfusion c)
  | .error _, .ok _ => .isFalse (fun c => Except.noConfusion c)

instance [DecidableEq ε] [DecidableEq α] : DecidableEq (Except ε α) :=
  exceptDecEq

/-! ## Sample data for witnesses -/

def authorA : AuthorRow :=
  { id := "123e4567-e89b-12d3-a456-426614174000", first_name := "John",
    last_name := "Doe", bio := some "Author bio", birth_date := none,
    created_at := 1, updated_at := 1 }

def book1 : BookRow :=
  { id := "987fcdeb-51a2-43b7-89ab-765432198000", title := "First Book",
    isbn := "978-0-123456-78-9", published_date := none,
    genre := some "Programming", author_id := authorA.id,
    created_at := 2, updated_at := 2 }

def book2 : BookRow :=
  { id := "987fcdeb-51a2-43b7-89ab-765432198001", title := "Second Book",
    isbn := "978-0-123456-78-0", published_date := none, genre := none,
    author_id := authorA.id, created_at := 3, updated_at := 3 }

def sampleDb : Db := { authors := [authorA], books := [book1, book2] }

/-! ## Claims -/

/-- **C2.** ISBN uniqueness is the invariant the Book service guards: in a
state whose stored ISBNs are pairwise distinct, (a) `create` fails with the
duplicate-ISBN `BadRequestException` and inserts nothing whenever some
existing Book carries exactly the requested `isbn` (given the author
resolves), (b) `update` with a supplied `isbn` fails the same way whenever a
Book *other than* the one being updated carries that `isbn`, and (c)
updating a Book's `isbn` to its own current value passes the duplicate
check and succeeds. -/
theorem isbn_uniqueness_guard (db : Db) (now : Nat) (newId : String)
    (hdist : db.books.Pairwise (fun a b => a.isbn ≠ b.isbn)) :
    (∀ (dto : CreateBookDto) (a : AuthorRow) (b : BookRow),
       authorsFindOne dto.authorId db.authors = .ok a →
       b ∈ db.books → b.isbn = dto.isbn →
       booksCreate dto db now newId =
         (.error (.badRequest ("Book with ISBN " ++ dto.isbn ++ " already exists")),
          db)) ∧
    (∀ (id : String) (dto : UpdateBookDto) (cur other : BookRow) (v : String),
       isUUID id = true →
       single? (fun b => b.id == id) db.books = some cur →
       dto.authorId = none → dto.isbn = some v → v ≠ "" →
       other ∈ db.books → other.isbn = v → other.id ≠ id →
       booksUpdate id dto db now =
         (.error (.badRequest ("Book with ISBN " ++ v ++ " already exists")), db)) ∧
    (∀ (id : String) (cur : BookRow),
       isUUID id = true →
       single? (fun b => b.id == id) db.books = some cur →
       cur.isbn ≠ "" →
       booksUpdate id { isbn := some cur.isbn } db now =
         (.ok { cur with updated_at := now },
          { db with books := db.books.map (fun b =>
              if b.id == id then applyBookUpdate { isbn := some cur.isbn } now b
              else b) })) := by
  refine ⟨?_, ?_, ?_⟩
  · intro dto a b hauth hb hisbn
    unfold booksCreate
    rw [hauth]
    have hf : db.books.filter (fun x => x.isbn == dto.isbn) = [b] :=
      filter_key_eq_singleton (fun x => x.isbn) hdist hb hisbn
    have hs : single? (fun x => x.isbn == dto.isbn) db.books = some b := by
      unfold single?; rw [hf]
    rw [hs]
  · intro id dto cur other v hid hcur haid hisbn hv hother hoisbn hoid
    have hf : db.books.filter (fun x => x.isbn == v) = [other] :=
      filter_key_eq_singleton (fun x => x.isbn) hdist hother hoisbn
    have hoidb : (other.id == id) = false := by
      simp only [beq_eq_false_iff_ne, ne_eq]; exact hoid
    have hfc := @filter_and_eq _ _ (fun b => !(b.id == id)) _ _ hf
    simp only [hoidb, Bool.not_false, if_true] at hfc
    have hsc : single? (fun b => b.isbn == v && !(b.id == id)) db.books =
        some other := by
      unfold single?; rw [hfc]
    have hvb : (v == "") = false := by simp [hv]
    simp only [booksUpdate, booksFindOne, booksFindOneCore, gatewaySingle,
      booksValidUUID, hid, hcur, haid, hisbn, Option.getD_some, truthy, hvb,
      hsc, Option.isSome_some, Bool.not_false, Bool.and_true, Bool.true_and,
      Bool.and_self, Bool.true_eq_false, Bool.false_eq_true, if_false,
      if_true, ite_true, ite_false, reduceCtorEq]
  · intro id cur hid hcur hne
    have hcid : (cur.id == id) = true := (single?_eq_some _ _ _ hcur).2
    have hf : db.books.filter (fun x => x.isbn == cur.isbn) = [cur] :=
      filter_key_eq_singleton (fun x => x.isbn) hdist
        (single?_eq_some _ _ _ hcur).1 rfl
    have hfc := @filter_and_eq _ _ (fun b => !(b.id == id)) _ _ hf
    simp only [hcid, Bool.not_true, Bool.false_eq_true, if_false] at hfc
    have hsc : single? (fun b => b.isbn == cur.isbn && !(b.id == id))
        db.books = none := by
      unfold single?; rw [hfc]
    have hvb : (cur.isbn == "") = false := by simp [hne]
    simp only [booksUpdate, booksFindOne, booksFindOneCore, gatewaySingle,
      booksValidUUID, hid, hcur, truthy, Option.getD_some, hvb, hsc,
      Option.isSome_none, Bool.and_false, Bool.not_false, bookUpdateEmpty,
      Option.isNone_some, Option.isNone_none, Bool.and_true, Bool.true_and,
      Bool.true_eq_false, Bool.false_eq_true, if_false, if_true, ite_true,
      ite_false, reduceCtorEq, applyBookUpdate, Option.getD_none]

/-- **C2 witness**: in the sample state, creating a Book with `book1`'s ISBN
fails with the duplicate error and leaves the state unchanged. -/
theorem isbn_uniqueness_guard_witness :
    booksCreate
      { title := "Third", isbn := "978-0-123456-78-9", authorId := authorA.id }
      sampleDb 7 "987fcdeb-51a2-43b7-89ab-765432198002" =
      (.error (.badRequest "Book with ISBN 978-0-123456-78-9 already exists"),
       sampleDb) :=
  (isbn_uniqueness_guard sampleDb 7 "987fcdeb-51a2-43b7-89ab-765432198002"
      (by decide)).1
    { title := "Third", isbn := "978-0-123456-78-9", authorId := authorA.id }
    authorA book1 (by decide) (by decide) (by decide)

/-- **C3.** Book create runs its checks in order, author resolution first:
any failure of `AuthorsService.findOne(authorId)` propagates unchanged and
leaves the datastore untouched — specifically a malformed `authorId` yields
the delegated `BadRequestException('Invalid UUID format')` and a well-formed
but unknown `authorId` yields the delegated `NotFoundException`; no ISBN
check or insert happens in either case. -/
theorem create_author_gate (dto : CreateBookDto) (db : Db) (now : Nat)
    (newId : String) :
    (∀ e, authorsFindOne dto.authorId db.authors = .error e →
       booksCreate dto db now newId = (.error e, db)) ∧
    (isUUID dto.authorId = false →
       authorsFindOne dto.authorId db.authors =
         .error (.badRequest "Invalid UUID format") ∧
       booksCreate dto db now newId =
         (.error (.badRequest "Invalid UUID format"), db)) ∧
    (isUUID dto.authorId = true →
       single? (fun a => a.id == dto.authorId) db.authors = none →
       authorsFindOne dto.authorId db.authors =
         .error (.notFound ("Author with ID " ++ dto.authorId ++ " not found")) ∧
       booksCreate dto db now newId =
         (.error (.notFound ("Author with ID " ++ dto.authorId ++ " not found")),
          db)) := by
  have hprop : ∀ e, authorsFindOne dto.authorId db.authors = .error e →
      booksCreate dto db now newId = (.error e, db) := by
    intro e he
    unfold booksCreate
    rw [he]
  refine ⟨hprop, ?_, ?_⟩
  · intro h
    have ha : authorsFindOne dto.authorId db.authors =
        .error (.badRequest "Invalid UUID format") := by
      unfold authorsFindOne authorsFindOneCore authorsValidUUID
      simp [h]
    exact ⟨ha, hprop _ ha⟩
  · intro h hs
    have ha : authorsFindOne dto.authorId db.authors =
        .error (.notFound ("Author with ID " ++ dto.authorId ++ " not found")) := by
      unfold authorsFindOne authorsFindOneCore authorsValidUUID gatewaySingle
      simp [h, hs]
    exact ⟨ha, hprop _ ha⟩

/-- **C3 witness**: a malformed `authorId` and a well-formed but unknown
`authorId` both abort the create with the delegated error, unchanged
state. -/
theorem create_author_gate_witness :
    booksCreate
      { title := "T", isbn := "978-0-123456-11-1", authorId := "invalid-uuid" }
      sampleDb 9 "987fcdeb-51a2-43b7-89ab-765432198003" =
      (.error (.badRequest "Invalid UUID format"), sampleDb) ∧
    booksCreate
      { title := "T", isbn := "978-0-123456-11-1",
        authorId := "123e4567-e89b-12d3-a456-426614174999" }
      sampleDb 9 "987fcdeb-51a2-43b7-89ab-765432198003" =
      (.error (.notFound
         "Author with ID 123e4567-e89b-12d3-a456-426614174999 not found"),
       sampleDb) :=
  ⟨((create_author_gate
      { title := "T", isbn := "978-0-123456-11-1", authorId := "invalid-uuid" }
      sampleDb 9 "987fcdeb-51a2-43b7-89ab-765432198003").2.1 (by decide)).2,
   ((create_author_gate
      { title := "T", isbn := "978-0-123456-11-1",
        authorId := "123e4567-e89b-12d3-a456-426614174999" }
      sampleDb 9 "987fcdeb-51a2-43b7-89ab-765432198003").2.2 (by decide)
      (by decide)).2⟩

/-- **C4.** `findOne` error contract of both services: a syntactically
invalid UUID fails with `BadRequestException('Invalid UUID format')` and
never `NotFoundException`, whatever the datastore would have answered;
for a valid UUID, an absent row and a datastore-reported error produce the
identical `NotFoundException`, and a present row is returned. -/
theorem findOne_error_contract (id : String) (ra : GatewayResp AuthorRow)
    (rb : GatewayResp BookRow) :
    (isUUID id = false →
       authorsFindOneCore id ra = .error (.badRequest "Invalid UUID format") ∧
       booksFindOneCore id rb = .error (.badRequest "Invalid UUID format")) ∧
    (isUUID id = true →
       (authorsFindOneCore id { data := none, dbError := none } =
          .error (.notFound ("Author with ID " ++ id ++ " not found")) ∧
        booksFindOneCore id { data := none, dbError := none } =
          .error (.notFound ("Book with ID " ++ id ++ " not found"))) ∧
       (∀ msg, authorsFindOneCore id { data := ra.data, dbError := some msg } =
          .error (.notFound ("Author with ID " ++ id ++ " not found")) ∧
        booksFindOneCore id { data := rb.data, dbError := some msg } =
          .error (.notFound ("Book with ID " ++ id ++ " not found"))) ∧
       (∀ a, authorsFindOneCore id { data := some a, dbError := none } = .ok a) ∧
       (∀ b, booksFindOneCore id { data := some b, dbError := none } = .ok b)) := by
  constructor
  · intro h
    constructor
    · unfold authorsFindOneCore authorsValidUUID
      simp [h]
    · unfold booksFindOneCore booksValidUUID
      simp [h]
  · intro h
    refine ⟨⟨?_, ?_⟩, ?_, ?_, ?_⟩
    · unfold authorsFindOneCore authorsValidUUID
      simp [h]
    · unfold booksFindOneCore booksValidUUID
      simp [h]
    · intro msg
      constructor
      · unfold authorsFindOneCore authorsValidUUID
        simp only [h, Bool.true_eq_false, if_false, ite_false]
      · unfold booksFindOneCore booksValidUUID
        simp only [h, Bool.true_eq_false, if_false, ite_false]
    · intro a
      unfold authorsFindOneCore authorsValidUUID
      simp [h]
    · intro b
      unfold booksFindOneCore booksValidUUID
      simp [h]

/-- **C4 witness**: a malformed id is a 400 regardless of the gateway; for a
valid id, absence and a gateway error produce the identical 404. -/
theorem findOne_error_contract_witness :
    authorsFindOneCore "invalid-uuid"
      { data := some authorA, dbError := none } =
      .error (.badRequest "Invalid UUID format") ∧
    booksFindOneCore "987fcdeb-51a2-43b7-89ab-765432198000"
      { data := none, dbError := none } =
      .error (.notFound
        "Book with ID 987fcdeb-51a2-43b7-89ab-765432198000 not found") ∧
    authorsFindOneCore "123e4567-e89b-12d3-a456-426614174000"
      { data := some authorA, dbError := some "connection reset" } =
      .error (.notFound
        "Author with ID 123e4567-e89b-12d3-a456-426614174000 not found") :=
  ⟨((findOne_error_contract "invalid-uuid"
       { data := some authorA, dbError := none }
       { data := none, dbError := none }).1 (by decide)).1,
   (((findOne_error_contract "987fcdeb-51a2-43b7-89ab-765432198000"
       { data := some authorA, dbError := none }
       { data := none, dbError := none }).2 (by decide)).1).2,
   ((((findOne_error_contract "123e4567-e89b-12d3-a456-426614174000"
       { data := some authorA, dbError := none }
       { data := none, dbError := none }).2 (by decide)).2.1)
       "connection reset").1⟩

/-- **C5.** An update whose partial has every updatable field `undefined` is
a successful no-op for both services: it returns the current record and
leaves the datastore (hence `updatedAt`) untouched; and the update set keeps
exactly the defined fields, so a field supplied as the empty string is
written. -/
theorem empty_partial_update_noop (aid bid : String)
    (authors : List AuthorRow) (db : Db) (now : Nat)
    (curA : AuthorRow) (curB : BookRow)
    (ha : isUUID aid = true)
    (hA : single? (fun a => a.id == aid) authors = some curA)
    (hb : isUUID bid = true)
    (hB : single? (fun b => b.id == bid) db.books = some curB) :
    authorsUpdate aid {} authors now = (.ok curA, authors) ∧
    booksUpdate bid {} db now = (.ok curB, db) ∧
    (authorsUpdate aid { bio := some "" } authors now =
       (.ok (applyAuthorUpdate { bio := some "" } now curA),
        authors.map (fun a => if a.id == aid
          then applyAuthorUpdate { bio := some "" } now a else a)) ∧
     applyAuthorUpdate { bio := some "" } now curA =
       { curA with bio := some "", updated_at := now }) ∧
    (booksUpdate bid { title := some "" } db now =
       (.ok (applyBookUpdate { title := some "" } now curB),
        { db with books := db.books.map (fun b => if b.id == bid
            then applyBookUpdate { title := some "" } now b else b) }) ∧
     applyBookUpdate { title := some "" } now curB =
       { curB with title := "", updated_at := now }) := by
  refine ⟨?_, ?_, ⟨?_, ?_⟩, ⟨?_, ?_⟩⟩
  · simp only [authorsUpdate, authorsFindOne, authorsFindOneCore,
      gatewaySingle, authorsValidUUID, ha, hA, authorUpdateEmpty,
      Option.isNone_none, Bool.and_self, Bool.and_true, Bool.true_and,
      Bool.true_eq_false, if_false, if_true, ite_true, ite_false]
  · simp only [booksUpdate, booksFindOne, booksFindOneCore, gatewaySingle,
      booksValidUUID, hb, hB, truthy, bookUpdateEmpty, Option.isNone_none,
      Bool.and_self, Bool.and_true, Bool.true_and, Bool.false_and,
      Bool.true_eq_false, Bool.false_eq_true, if_false, if_true, ite_true,
      ite_false]
  · simp only [authorsUpdate, authorsFindOne, authorsFindOneCore,
      gatewaySingle, authorsValidUUID, ha, hA, authorUpdateEmpty,
      Option.isNone_none, Option.isNone_some, Bool.and_self, Bool.and_true,
      Bool.true_and, Bool.and_false, Bool.false_and, Bool.true_eq_false,
      Bool.false_eq_true, if_false, if_true, ite_true, ite_false]
  · rfl
  · simp only [booksUpdate, booksFindOne, booksFindOneCore, gatewaySingle,
      booksValidUUID, hb, hB, truthy, bookUpdateEmpty, Option.isNone_none,
      Option.isNone_some, Bool.and_self, Bool.and_true, Bool.true_and,
      Bool.and_false, Bool.false_and, Bool.true_eq_false, Bool.false_eq_true,
      if_false, if_true, ite_true, ite_false]
  · rfl

/-- **C5 witness**: in the sample state, an all-`undefined` update is a
successful no-op for both services. -/
theorem empty_partial_update_noop_witness :
    authorsUpdate "123e4567-e89b-12d3-a456-426614174000" {} [authorA] 9 =
      (.ok authorA, [authorA]) ∧
    booksUpdate "987fcdeb-51a2-43b7-89ab-765432198000" {} sampleDb 9 =
      (.ok book1, sampleDb) :=
  ⟨(empty_partial_update_noop "123e4567-e89b-12d3-a456-426614174000"
      "987fcdeb-51a2-43b7-89ab-765432198000" [authorA] sampleDb 9 authorA
      book1 (by decide) (by decide) (by decide) (by decide)).1,
   (empty_partial_update_noop "123e4567-e89b-12d3-a456-426614174000"
      "987fcdeb-51a2-43b7-89ab-765432198000" [authorA] sampleDb 9 authorA
      book1 (by decide) (by decide) (by decide) (by decide)).2.1⟩

/-- **C9.** In Book update the pre-check guards test JavaScript truthiness
while the update-set construction tests only `undefined`: supplying `isbn`
and `authorId` as empty strings skips both the duplicate-ISBN check and the
author-existence check entirely (no hypothesis about other ISBNs or about
the authors table is needed), yet both fields are included in the persisted
update set. -/
theorem truthy_guard_vs_defined_set (id : String) (db : Db) (now : Nat)
    (cur : BookRow) (hid : isUUID id = true)
    (hcur : single? (fun b => b.id == id) db.books = some cur) :
    booksUpdate id { isbn := some "", authorId := some "" } db now =
      (.ok (applyBookUpdate { isbn := some "", authorId := some "" } now cur),
       { db with books := db.books.map (fun b => if b.id == id
           then applyBookUpdate { isbn := some "", authorId := some "" } now b
           else b) }) ∧
    applyBookUpdate { isbn := some "", authorId := some "" } now cur =
      { cur with isbn := "", author_id := "", updated_at := now } := by
  constructor
  · simp only [booksUpdate, booksFindOne, booksFindOneCore, gatewaySingle,
      booksValidUUID, hid, hcur, truthy, bookUpdateEmpty, Option.isNone_none,
      Option.isNone_some, beq_self_eq_true, Bool.not_true, Bool.and_self,
      Bool.and_true, Bool.true_and, Bool.and_false, Bool.false_and,
      Bool.true_eq_false, Bool.false_eq_true, if_false, if_true, ite_true,
      ite_false]
  · rfl

/-- **C9 witness**: updating `book1` with empty-string `isbn` and
`authorId` succeeds and writes both empty strings. -/
theorem truthy_guard_vs_defined_set_witness :
    booksUpdate "987fcdeb-51a2-43b7-89ab-765432198000"
      { isbn := some "", authorId := some "" } sampleDb 9 =
      (.ok { book1 with isbn := "", author_id := "", updated_at := 9 },
       { sampleDb with books :=
           [{ book1 with isbn := "", author_id := "", updated_at := 9 },
            book2] }) := by
  rw [(truthy_guard_vs_defined_set "987fcdeb-51a2-43b7-89ab-765432198000"
      sampleDb 9 book1 (by decide) (by decide)).1]
  decide

/-- **C6.** For both services, `findAll` returns as `data` exactly the rows
at offsets `(page−1)·limit .. (page−1)·limit + limit − 1` of the filtered
result ordered by `created_at` descending, and as `total` the count of all
matching rows independent of the window; a page beyond the data yields an
empty `data` with `total` unchanged. -/
theorem findAll_window_and_total (qb : QueryBookDto) (books : List BookRow)
    (qa : QueryAuthorDto) (authors : List AuthorRow)
    (hbp : 1 ≤ jsToIntOr qb.page 1) (hbl : 1 ≤ jsToIntOr qb.limit 10)
    (hba : truthy qb.authorId = false ∨
           booksValidUUID (qb.authorId.getD "") = true)
    (hap : 1 ≤ jsToIntOr qa.page 1) (hal : 1 ≤ jsToIntOr qa.limit 10) :
    booksFindAll qb books =
      .ok (((sortKeyDesc (fun b => b.created_at)
              (books.filter (bookMatches qb))).drop
              (((jsToIntOr qb.page 1 - 1) * jsToIntOr qb.limit 10).toNat)).take
              (jsToIntOr qb.limit 10).toNat,
           (books.filter (bookMatches qb)).length) ∧
    ((books.filter (bookMatches qb)).length ≤
        ((jsToIntOr qb.page 1 - 1) * jsToIntOr qb.limit 10).toNat →
      booksFindAll qb books = .ok ([], (books.filter (bookMatches qb)).length)) ∧
    authorsFindAll qa authors =
      .ok (((sortKeyDesc (fun a => a.created_at)
              (authors.filter (authorMatches qa))).drop
              (((jsToIntOr qa.page 1 - 1) * jsToIntOr qa.limit 10).toNat)).take
              (jsToIntOr qa.limit 10).toNat,
           (authors.filter (authorMatches qa)).length) ∧
    ((authors.filter (authorMatches qa)).length ≤
        ((jsToIntOr qa.page 1 - 1) * jsToIntOr qa.limit 10).toNat →
      authorsFindAll qa authors =
        .ok ([], (authors.filter (authorMatches qa)).length)) := by
  refine ⟨booksFindAll_ok qb books hbp hbl hba, ?_,
          authorsFindAll_ok qa authors hap hal, ?_⟩
  · intro hle
    rw [booksFindAll_ok qb books hbp hbl hba]
    rw [List.drop_eq_nil_iff.mpr (by rw [length_sortKeyDesc]; exact hle),
       List.take_nil]
  · intro hle
    rw [authorsFindAll_ok qa authors hap hal]
    rw [List.drop_eq_nil_iff.mpr (by rw [length_sortKeyDesc]; exact hle),
       List.take_nil]

/-- **C6 witness**: page 2 with limit 1 over two books returns the second
row of the descending order with the full count; the same request over one
author returns an empty window with the count unchanged. -/
theorem findAll_window_and_total_witness :
    booksFindAll { page := some "2", limit := some "1" } [book1, book2] =
      .ok ([book1], 2) ∧
    authorsFindAll { page := some "2", limit := some "1" } [authorA] =
      .ok ([], 1) := by
  have h := findAll_window_and_total
    { page := some "2", limit := some "1" } [book1, book2]
    { page := some "2", limit := some "1" } [authorA]
    (by decide) (by decide) (Or.inl (by decide)) (by decide) (by decide)
  constructor
  · rw [h.1]; decide
  · rw [h.2.2.1]; decide

/-- **C7.** The pagination envelope computes `totalPages = ceil(total/limit)`
over the defaulted request parameters and echoes `page` and `limit` back:
with 23 stored rows and the default limit 10, `totalPages` is 3, and
requesting page 4 (beyond the data) returns an empty `data` with
`meta.total` still 23 — in both controllers. -/
theorem envelope_pagination_arithmetic (books : List BookRow)
    (authors : List AuthorRow) (hb : books.length = 23)
    (ha : authors.length = 23) :
    booksControllerFindAll { page := some "4" } books =
      .ok ([], { total := 23, page := some 4, limit := some 10,
                 totalPages := .int 3 }) ∧
    authorsControllerFindAll { page := some "4" } authors =
      .ok ([], { total := 23, page := some 4, limit := some 10,
                 totalPages := .int 3 }) := by
  constructor
  · have hfilter : books.filter (bookMatches { page := some "4" }) = books :=
      List.filter_eq_self.mpr (fun b _ => by simp [bookMatches, truthy])
    have hs := booksFindAll_ok { page := some "4" } books (by decide)
      (by decide) (Or.inl (by decide))
    rw [hfilter, hb] at hs
    rw [List.drop_eq_nil_iff.mpr (by rw [length_sortKeyDesc, hb]; decide),
       List.take_nil] at hs
    unfold booksControllerFindAll
    rw [hs]
    decide
  · have hfilter : authors.filter (authorMatches { page := some "4" }) =
        authors :=
      List.filter_eq_self.mpr (fun a _ => by simp [authorMatches, truthy])
    have hs := authorsFindAll_ok { page := some "4" } authors (by decide)
      (by decide)
    rw [hfilter, ha] at hs
    rw [List.drop_eq_nil_iff.mpr (by rw [length_sortKeyDesc, ha]; decide),
       List.take_nil] at hs
    unfold authorsControllerFindAll
    rw [hs]
    decide

/-- **C7 witness**: the arithmetic at 23 concrete rows. -/
theorem envelope_pagination_arithmetic_witness :
    booksControllerFindAll { page := some "4" } (List.replicate 23 book1) =
      .ok ([], { total := 23, page := some 4, limit := some 10,
                 totalPages := .int 3 }) ∧
    authorsControllerFindAll { page := some "4" } (List.replicate 23 authorA) =
      .ok ([], { total := 23, page := some 4, limit := some 10,
                 totalPages := .int 3 }) :=
  ⟨(envelope_pagination_arithmetic (List.replicate 23 book1)
      (List.replicate 23 authorA) (by decide) (by decide)).1,
   (envelope_pagination_arithmetic (List.replicate 23 book1)
      (List.replicate 23 authorA) (by decide) (by decide)).2⟩

/-- **C1.** Evaluation at the failing input `limit="0"` with 23 stored
rows: the request raises no error, and the *service* normalizes the limit to
10 (the returned window is 10 rows wide), but the *controller* echoes
`limit = 0` and computes `totalPages = ceil(23/0) = Infinity` — it does not
normalize, so the two layers disagree (the normalized computation would give
limit 10 and `totalPages = 3`). -/
theorem limit_zero_layer_divergence (books : List BookRow)
    (hb : books.length = 23) :
    booksControllerFindAll { limit := some "0" } books =
      .ok ((sortKeyDesc (fun b => b.created_at) books).take 10,
           { total := 23, page := some 1, limit := some 0,
             totalPages := .inf }) ∧
    jsToIntOr (some "0") 10 = 10 ∧
    jsCeilDiv 23 (some 10) = .int 3 := by
  refine ⟨?_, by decide, by decide⟩
  have hfilter : books.filter (bookMatches { limit := some "0" }) = books :=
    List.filter_eq_self.mpr (fun b _ => by simp [bookMatches, truthy])
  have hs := booksFindAll_ok { limit := some "0" } books (by decide)
    (by decide) (Or.inl (by decide))
  rw [hfilter, hb] at hs
  unfold booksControllerFindAll
  rw [hs]
  rfl

/-- **C1 witness**: the divergence at 23 concrete rows. -/
theorem limit_zero_layer_divergence_witness :
    booksControllerFindAll { limit := some "0" } (List.replicate 23 book1) =
      .ok (List.replicate 10 book1,
           { total := 23, page := some 1, limit := some 0,
             totalPages := .inf }) := by
  rw [(limit_zero_layer_divergence (List.replicate 23 book1) (by decide)).1]
  decide

/-- **C8 counterexample**: the boundary validation accepts `page = "-1"`
(`IsNumberString` admits a sign), so the request is *not* rejected before
the service runs; the service's offset computation yields `-20`, and the
request fails only at the datastore range, as a `BadRequestException` from
the failed fetch rather than a boundary validation error. -/
theorem negative_page_passes_boundary :
    queryBookDtoAccepts { page := some "-1" } = true ∧
    (jsToIntOr (some "-1") 1 - 1) * jsToIntOr (none : Option String) 10 = -20 ∧
    booksFindAll { page := some "-1" } [] =
      .error (.badRequest
        "Failed to fetch books: Requested range not satisfiable") :=
  ⟨by decide, by decide, by decide⟩

/-- **C8 (amended).** A negative-page list request passes the DTO boundary
(`IsNumberString` admits signed numerals) and reaches the service, whose
offset computation goes negative; `findAll` then fails with the
`BadRequestException` surfaced from the datastore's rejection of the
negative range — a client error, but raised downstream of the offset
computation, and never a silent clamp to a valid window. -/
theorem negative_page_flows_to_gateway_error (q : QueryBookDto)
    (books : List BookRow) (hp : jsToIntOr q.page 1 < 0)
    (hl : 1 ≤ jsToIntOr q.limit 10)
    (ha : truthy q.authorId = false ∨
          booksValidUUID (q.authorId.getD "") = true) :
    booksFindAll q books =
      .error (.badRequest
        "Failed to fetch books: Requested range not satisfiable") := by
  unfold booksFindAll
  have h1 : (truthy q.authorId && !booksValidUUID (q.authorId.getD "")) =
      false := by
    rcases ha with h | h <;> simp [h]
  have hneg : (jsToIntOr q.page 1 - 1) * jsToIntOr q.limit 10 < 0 :=
    mul_neg_of_neg_of_pos (by omega) (by omega)
  simp only [h1, Bool.false_eq_true, if_false]
  have hcond : (decide ((jsToIntOr q.page 1 - 1) * jsToIntOr q.limit 10 < 0) ||
      decide (jsToIntOr q.limit 10 < 0)) = true := by
    simp only [Bool.or_eq_true, decide_eq_true_eq]
    exact Or.inl hneg
  rw [if_pos hcond]

/-- **C8 witness**: the amended behaviour at `page="-1"` over one stored
row. -/
theorem negative_page_flows_to_gateway_error_witness :
    booksFindAll { page := some "-1" } [book1] =
      .error (.badRequest
        "Failed to fetch books: Requested range not satisfiable") :=
  negative_page_flows_to_gateway_error { page := some "-1" } [book1]
    (by decide) (by decide) (Or.inl (by decide))

/-- **C10.** `validateUUID` in both services is case-insensitive: acceptance
depends only on the ASCII-case-folded code points of the id — so any two
ids that agree up to letter case are both accepted or both rejected — and
the fully uppercase spellings, including uppercase variant nibbles `A` and
`B`, are accepted. -/
theorem uuid_validation_case_insensitive :
    (∀ s t : String, foldedCodes s = foldedCodes t →
       authorsValidUUID s = authorsValidUUID t ∧
       booksValidUUID s = booksValidUUID t) ∧
    authorsValidUUID "123E4567-E89B-12D3-A456-426614174000" = true ∧
    booksValidUUID "987FCDEB-51A2-43B7-B9AB-765432198000" = true :=
  ⟨fun s t h => ⟨isUUID_eq_of_foldedCodes h, isUUID_eq_of_foldedCodes h⟩,
   by decide, by decide⟩

/-- **C10 witness**: uppercase and lowercase spellings of the same id get
the same verdict from both services. -/
theorem uuid_validation_case_insensitive_witness :
    authorsValidUUID "123E4567-E89B-12D3-A456-426614174000" =
      authorsValidUUID "123e4567-e89b-12d3-a456-426614174000" ∧
    booksValidUUID "987FCDEB-51A2-43B7-B9AB-765432198000" =
      booksValidUUID "987fcdeb-51a2-43b7-b9ab-765432198000" :=
  ⟨(uuid_validation_case_insensitive.1 "123E4567-E89B-12D3-A456-426614174000"
      "123e4567-e89b-12d3-a456-426614174000" (by decide)).1,
   (uuid_validation_case_insensitive.1 "987FCDEB-51A2-43B7-B9AB-765432198000"
      "987fcdeb-51a2-43b7-b9ab-765432198000" (by decide)).2⟩

end BookMgmt
